import Mathlib

/-!
# Verification of the v-nova voice-commerce conversation engine

Shallow embedding of the voice-command interpretation and guided-checkout
conversation engine of the repository (the checkout dialogue state machine of
`src/hooks/useCheckoutFlow.ts`, the field extractors of `useUserInfo.ts`, the
transcript acceptance logic and session resilience manager of
`components/VapiAssistant.tsx`, and the intent classifier / direct-command
router of `useVoiceCommandHandlers.ts`), together with theorems checking the
specification's claims against these definitions.

JavaScript strings are modelled as Lean `String`s (ASCII inputs), timestamps
as `Nat` milliseconds, and the regular expressions of the source are
hand-translated into executable matching functions with the same
leftmost / greedy / ordered-alternation semantics on the inputs of interest.
-/

namespace VNova

/-! ## JS string primitives -/

/-- `s.toLowerCase()` (ASCII). -/
def jsLower (s : String) : String := String.mk (s.toList.map Char.toLower)

/-- `s.trim()`: strip leading and trailing whitespace (kernel-computable). -/
def jsTrim (s : String) : String :=
  String.mk
    (((s.toList.dropWhile Char.isWhitespace).reverse.dropWhile
      Char.isWhitespace).reverse)

/-- `parseInt` on an all-digit string. -/
def digitsToNat (l : List Char) : Nat :=
  l.foldl (fun n c => n * 10 + (c.toNat - 48)) 0

/-- Substring search on character lists: JS `haystack.includes(needle)`. -/
def containsL (needle : List Char) : List Char → Bool
  | [] => needle.isEmpty
  | c :: t => needle.isPrefixOf (c :: t) || containsL needle t

/-- JS `s.includes(sub)`. -/
def containsSub (s sub : String) : Bool := containsL sub.toList s.toList

/-- `s.replace([^class]/g, "")`: keep only the characters satisfying `p`. -/
def filterChars (p : Char → Bool) (s : String) : String :=
  String.mk (s.toList.filter p)

/-- Accumulator pass splitting into maximal non-whitespace runs. -/
def wordsAux (acc : List Char) : List Char → List String
  | [] => if acc.isEmpty then [] else [String.mk acc.reverse]
  | c :: t =>
    if c.isWhitespace then
      if acc.isEmpty then wordsAux [] t
      else String.mk acc.reverse :: wordsAux [] t
    else wordsAux (c :: acc) t

/-- JS `s.split(/\s+/).filter(w => w.length > 0)`-style word splitting. -/
def splitWs (s : String) : List String := wordsAux [] s.toList

/-- Accumulator pass collecting maximal digit runs (reversed run in `acc`). -/
def digitRunsAux (acc : List Char) : List Char → List String
  | [] => if acc.isEmpty then [] else [String.mk acc.reverse]
  | c :: t =>
    if c.isDigit then digitRunsAux (c :: acc) t
    else if acc.isEmpty then digitRunsAux [] t
    else String.mk acc.reverse :: digitRunsAux [] t

/-- Maximal runs of decimal digits: JS `s.match(/\d+/g)` (empty list for `null`). -/
def digitRuns (s : String) : List String := digitRunsAux [] s.toList

/-- JS `s.padStart(2, "0")`. -/
def pad2 (s : String) : String :=
  if s.length < 2 then String.mk (List.replicate (2 - s.length) '0') ++ s else s

/-- JS `s.slice(a, b)` for `a ≤ b` over ASCII strings. -/
def sliceStr (s : String) (a b : Nat) : String :=
  String.mk ((s.toList.drop a).take (b - a))

/-- JS `s.slice(a)`. -/
def dropStr (s : String) (a : Nat) : String := String.mk (s.toList.drop a)

/-- JS `s.slice(-n)`: the last `n` characters. -/
def takeRight (s : String) (n : Nat) : String :=
  String.mk (s.toList.drop (s.length - n))

/-- JS `s.match(/.{1,4}/g)`: chunks of at most four characters. -/
def chunk4 : List Char → List String
  | [] => []
  | c :: t => String.mk ((c :: t).take 4) :: chunk4 ((c :: t).drop 4)
  termination_by l => l.length
  decreasing_by simp only [List.drop, List.length_cons, List.length_drop]; omega

/-- `s.trim().replace(/[.,!?;:]+$/, "")`: the `cleanValue` helper of
`useUserInfo.ts` (strip trailing punctuation after trimming). -/
def cleanValue (s : String) : String :=
  String.mk (((jsTrim s).toList.reverse.dropWhile
    (fun c => c ∈ ['.', ',', '!', '?', ';', ':'])).reverse)

/-! ## Checkout steps, prompts and phrase lists (`useCheckoutFlow.ts`) -/

inductive CheckoutStep
  | idle | name | email | address | phone | cardName | cardNumber
  | expiryDate | cvv | confirm | complete
deriving DecidableEq, Repr

open CheckoutStep in
/-- `STEP_ORDER`. -/
def STEP_ORDER : List CheckoutStep :=
  [name, email, address, phone, cardName, cardNumber, expiryDate, cvv, confirm]

/-- `STEP_PROMPTS`. -/
def stepPrompt : CheckoutStep → String
  | .idle => ""
  | .name => "Let\x27s complete your order. What is your full name?"
  | .email => "Great! What is your email address?"
  | .address => "What is your shipping address?"
  | .phone => "What is your phone number?"
  | .cardName => "Now for payment details. What name is on your card?"
  | .cardNumber => "What is your card number?"
  | .expiryDate => "What is the expiry date? Please say it as month and year."
  | .cvv => "What is the CVV or security code on the back of your card?"
  | .confirm => "I have all your details. Would you like me to place the order?"
  | .complete => "Your order has been placed successfully!"

open CheckoutStep in
/-- The key order of the `STEP_PROMPTS` object literal (for `Object.values`). -/
def allSteps : List CheckoutStep :=
  [idle, name, email, address, phone, cardName, cardNumber, expiryDate, cvv,
   confirm, complete]

/-- `ASSISTANT_PHRASES`. -/
def ASSISTANT_PHRASES : List String :=
  ["let\x27s complete", "complete your order", "what is your", "what is the",
   "great", "perfect", "excellent", "thank you", "thanks", "now for",
   "please say", "i didn\x27t catch", "i need", "say it as", "i have all",
   "would you like", "place the order", "your order has been", "successfully",
   "let\x27s", "okay", "sure", "alright", "got it", "i understand", "cool",
   "wait", "hold on"]

/-- `IGNORE_PHRASES`. -/
def IGNORE_PHRASES : List String :=
  ["okay", "ok", "sure", "yeah", "yep", "no", "nope", "got it", "right",
   "alright", "cool", "wait", "hold on"]

/-- The `COMMAND_PHRASES` guard list inside `validateInput`. -/
def COMMAND_PHRASES : List String :=
  ["complete purchase", "complete the purchase", "place order",
   "place the order", "check out", "buy now", "yes complete", "yes proceed",
   "confirm order"]

/-! ## Pattern-matching combinators

The regular expressions of the source are hand-compiled into search functions.
`findSuffix?` scans candidate match start positions left to right (JS leftmost
match); at a position, quantifier lengths are tried greedily (longest first,
via `descRange`) and alternations in written order (via `firstSome?`), which is
exactly the JS backtracking order.  Where a `\s+`/`\s*` is followed by a
construct that cannot match whitespace, only the maximal whitespace run can
succeed, and the translation commits to it. -/

def firstSome? {α β : Type} : List α → (α → Option β) → Option β
  | [], _ => none
  | a :: t, f => match f a with | some b => some b | none => firstSome? t f

/-- Leftmost match: try `f` on every suffix, longest (leftmost) first. -/
def findSuffix? {β : Type} (f : List Char → Option β) : List Char → Option β
  | [] => f []
  | c :: t => match f (c :: t) with | some b => some b | none => findSuffix? f t

def anySuffix (f : List Char → Bool) : List Char → Bool
  | [] => f []
  | c :: t => f (c :: t) || anySuffix f t

/-- `[n, n-1, ..., 1]`: greedy enumeration of quantifier lengths. -/
def descRange : Nat → List Nat
  | 0 => []
  | n + 1 => (n + 1) :: descRange n

/-- Case-insensitive literal prefix match (for `/.../i` literals). -/
def litCI : List Char → List Char → Bool
  | [], _ => true
  | _ :: _, [] => false
  | a :: as, b :: bs => (a.toLower == b.toLower) && litCI as bs

def wsRunLen (l : List Char) : Nat := (l.takeWhile Char.isWhitespace).length

def classRunLen (p : Char → Bool) (l : List Char) : Nat := (l.takeWhile p).length

/-- Length consumed by an optional literal (`(?: lit)?`, greedy). -/
def optLit (w : String) (l : List Char) : Nat :=
  if litCI w.toList l then w.length else 0

/-- JS global `replace` of the phrase recognised by `pm` with `rep`:
scan left to right, substituting each non-overlapping match.  The fuel is the
input length; every phrase matcher used here consumes at least one character,
so the fuel is never exhausted on real inputs. -/
def replaceScanAux (pm : List Char → Option Nat) (rep : List Char) :
    Nat → List Char → List Char
  | 0, l => l
  | _ + 1, [] => []
  | f + 1, c :: t =>
    match pm (c :: t) with
    | some n => rep ++ replaceScanAux pm rep f ((c :: t).drop n)
    | none => c :: replaceScanAux pm rep f t

def replaceScan (pm : List Char → Option Nat) (rep : List Char) (s : String) :
    String :=
  String.mk (replaceScanAux pm rep s.toList.length s.toList)

/-! ## Field extractors (`useUserInfo.ts`) -/

/-- The literal alternatives of the first `extractName` pattern. -/
def namePatLits : List String :=
  ["my name is", "this is", "i am", "i\x27m", "call me", "name is", "it\x27s"]

/-- `\s+([a-z\s]+)` with backtracking over the whitespace split
(the capture class itself admits whitespace). -/
def nameCapture (rest : List Char) : Option (List Char) :=
  firstSome? (descRange (wsRunLen rest)) (fun k =>
    let r2 := rest.drop k
    let m := classRunLen (fun c => c.isAlpha || c.isWhitespace) r2
    if 0 < m then some (r2.take m) else none)

/-- `extractName`: strip a self-introduction phrase, else return the whole
transcript, always cleaned of trailing punctuation. -/
def extractName (transcript : String) : String :=
  let l := transcript.toList
  match findSuffix? (fun l' => firstSome? namePatLits (fun lit =>
      if litCI lit.toList l' then nameCapture (l'.drop lit.length) else none)) l with
  | some g => cleanValue (String.mk g)
  | none =>
    match (if litCI ("the name is").toList l
           then nameCapture (l.drop 11) else none) with
    | some g => cleanValue (String.mk g)
    | none => cleanValue transcript

/-- `[a-zA-Z0-9._+-]` (email local part). -/
def emailLocalClass (c : Char) : Bool :=
  c.isAlphanum || c ∈ ['.', '_', '+', '-']

/-- `[a-zA-Z0-9.-]` (email domain part). -/
def emailDomClass (c : Char) : Bool := c.isAlphanum || c ∈ ['.', '-']

/-- `/([a-zA-Z0-9._+-]+@[a-zA-Z0-9.-]+\.[a-zA-Z]{2,})/i` at one position,
returning the whole matched substring. -/
def emailLiteralAt (l : List Char) : Option (List Char) :=
  firstSome? (descRange (classRunLen emailLocalClass l)) (fun a =>
    match l.drop a with
    | '@' :: r2 =>
      firstSome? (descRange (classRunLen emailDomClass r2)) (fun b =>
        match r2.drop b with
        | '.' :: r4 =>
          let c := classRunLen Char.isAlpha r4
          if 2 ≤ c then some (l.take (a + 1 + b + 1 + c)) else none
        | _ => none)
    | _ => none)

/-- Spoken-email pattern
`/([a-z0-9._+-]+)\s*(?:at|@)\s*([a-z0-9.-]+)\s*(?:dot|\.)\s*([a-z]{2,})/i`,
returning the three capture groups. -/
def spokenEmailAt (minTld : Nat) (l : List Char) :
    Option (String × String × String) :=
  firstSome? (descRange (classRunLen emailLocalClass l)) (fun a =>
    let g1 := l.take a
    let r1 := l.drop a
    let r1' := r1.drop (wsRunLen r1)
    let afterAt : Option (List Char) :=
      if litCI ("at").toList r1' then some (r1'.drop 2)
      else match r1' with
        | '@' :: r => some r
        | _ => none
    match afterAt with
    | none => none
    | some r2 =>
      let r2' := r2.drop (wsRunLen r2)
      firstSome? (descRange (classRunLen emailDomClass r2')) (fun b =>
        let g2 := r2'.take b
        let r3 := r2'.drop b
        let r3' := r3.drop (wsRunLen r3)
        let afterDot : Option (List Char) :=
          if litCI ("dot").toList r3' then some (r3'.drop 3)
          else match r3' with
            | '.' :: r => some r
            | _ => none
        match afterDot with
        | none => none
        | some r4 =>
          let r4' := r4.drop (wsRunLen r4)
          let c := classRunLen Char.isAlpha r4'
          if minTld ≤ c then
            some (String.mk g1, String.mk g2, String.mk (r4'.take c))
          else none))

/-- `extractEmail`: literal email, else spoken "at"/"dot" form, else the
cleaned transcript — always lowercased. -/
def extractEmail (transcript : String) : String :=
  match findSuffix? emailLiteralAt transcript.toList with
  | some m => jsLower (String.mk m)
  | none =>
    match findSuffix? (spokenEmailAt 2) transcript.toList with
    | some (g1, g2, g3) => jsLower (g1 ++ "@" ++ g2 ++ "." ++ g3)
    | none => jsLower (cleanValue transcript)

/-- `/(?:my )?(?:phone|number|contact)(?: number)?(?: is)?/i` at one position. -/
def phonePhraseAt (l : List Char) : Option Nat :=
  firstSome? [true, false] (fun useMy =>
    if useMy && !(litCI ("my ").toList l) then none
    else
      let n0 := if useMy then 3 else 0
      firstSome? ["phone", "number", "contact"] (fun w =>
        if litCI w.toList (l.drop n0) then
          let n1 := n0 + w.length
          let n2 := n1 + optLit " number" (l.drop n1)
          some (n2 + optLit " is" (l.drop n2))
        else none))

/-- `[\d\s\-\(\)\.+]` (phone body). -/
def phoneClass (c : Char) : Bool :=
  c.isDigit || c.isWhitespace || c ∈ ['-', '(', ')', '.', '+']

/-- `extractPhone`: drop phone phrases, take the first run of at least ten
phone characters, keep digits and `+`. -/
def extractPhone (transcript : String) : String :=
  let cleaned := jsTrim (replaceScan phonePhraseAt [] transcript)
  let l := cleaned.toList
  match findSuffix? (fun l' =>
      let m := classRunLen phoneClass l'
      if 10 ≤ m then some (l'.take m) else none) l with
  | some run => String.mk (run.filter (fun c => c.isDigit || c == '+'))
  | none => String.mk (l.filter (fun c => c.isDigit || c == '+'))

/-- `/(?:my )?(?:card|credit card)(?: number)?(?: is)?/i` at one position. -/
def cardPhraseAt (l : List Char) : Option Nat :=
  firstSome? [true, false] (fun useMy =>
    if useMy && !(litCI ("my ").toList l) then none
    else
      let n0 := if useMy then 3 else 0
      firstSome? ["card", "credit card"] (fun w =>
        if litCI w.toList (l.drop n0) then
          let n1 := n0 + w.length
          let n2 := n1 + optLit " number" (l.drop n1)
          some (n2 + optLit " is" (l.drop n2))
        else none))

/-- `extractCardNumber`: drop card phrases, take the first `[\d\s]{13,19}` run
(greedy, at most 19), strip whitespace — else all digits. -/
def extractCardNumber (transcript : String) : String :=
  let cleaned := jsTrim (replaceScan cardPhraseAt [] transcript)
  let l := cleaned.toList
  match findSuffix? (fun l' =>
      let m := classRunLen (fun c => c.isDigit || c.isWhitespace) l'
      if 13 ≤ m then some (l'.take (min m 19)) else none) l with
  | some run => String.mk (run.filter (fun c => !c.isWhitespace))
  | none => String.mk (l.filter Char.isDigit)

/-- `/(?:expiry|expiration)(?: date)?(?: is)?/i` at one position. -/
def expiryPhraseAt (l : List Char) : Option Nat :=
  firstSome? ["expiry", "expiration"] (fun w =>
    if litCI w.toList l then
      let n1 := w.length
      let n2 := n1 + optLit " date" (l.drop n1)
      some (n2 + optLit " is" (l.drop n2))
    else none)

/-- `/(\d{1,2})\s*[\/\-]\s*(\d{2,4})/` at one position (the two groups). -/
def expiryPatternAt (l : List Char) : Option (String × String) :=
  firstSome? (descRange (min (classRunLen Char.isDigit l) 2)) (fun a =>
    let g1 := l.take a
    let r1 := l.drop a
    match r1.drop (wsRunLen r1) with
    | c :: r2 =>
      if c == '/' || c == '-' then
        let r2' := r2.drop (wsRunLen r2)
        let b := min (classRunLen Char.isDigit r2') 4
        if 2 ≤ b then some (String.mk g1, String.mk (r2'.take b)) else none
      else none
    | [] => none)

/-- `extractExpiryDate`: drop expiry phrases; use the `MM/YY`-style pattern,
else the first two digit runs, else the cleaned text. -/
def extractExpiryDate (transcript : String) : String :=
  let cleaned := jsTrim (replaceScan expiryPhraseAt [] transcript)
  match findSuffix? expiryPatternAt cleaned.toList with
  | some (g1, g2) =>
    let month := pad2 g1
    let year := if g2.length == 2 then g2 else takeRight g2 2
    month ++ "/" ++ year
  | none =>
    match digitRuns cleaned with
    | n1 :: n2 :: _ =>
      let month := pad2 n1
      let year := if n2.length == 4 then takeRight n2 2 else n2
      month ++ "/" ++ year
    | _ => cleanValue cleaned

/-- `/(?:cvv|security code|cvc)(?: is)?/i` at one position. -/
def cvvPhraseAt (l : List Char) : Option Nat :=
  firstSome? ["cvv", "security code", "cvc"] (fun w =>
    if litCI w.toList l then some (w.length + optLit " is" (l.drop w.length))
    else none)

/-- `extractCVV`: drop CVV phrases, take the first `\d{3,4}` run (greedy, at
most 4 digits) — else all digits. -/
def extractCVV (transcript : String) : String :=
  let cleaned := jsTrim (replaceScan cvvPhraseAt [] transcript)
  let l := cleaned.toList
  match findSuffix? (fun l' =>
      let m := classRunLen Char.isDigit l'
      if 3 ≤ m then some (l'.take (min m 4)) else none) l with
  | some run => String.mk run
  | none => String.mk (l.filter Char.isDigit)

/-- The ordered literal alternatives of the `extractAddress` pattern. -/
def addrLits : List String :=
  ["i live at", "i live on", "i live in", "my address is", "address:",
   "address", "the address is", "ship to", "shipping address is"]

/-- `\s+(.+)` with backtracking over the whitespace split (`.` matches any
character except a line terminator). -/
def addrCapture (rest : List Char) : Option (List Char) :=
  firstSome? (descRange (wsRunLen rest)) (fun k =>
    let r2 := rest.drop k
    let m := classRunLen (fun c => c ≠ '\n' && c ≠ '\r') r2
    if 0 < m then some (r2.take m) else none)

/-- `extractAddress`: strip an address-introduction phrase, else the whole
transcript, cleaned of trailing punctuation. -/
def extractAddress (transcript : String) : String :=
  match findSuffix? (fun l' => firstSome? addrLits (fun lit =>
      if litCI lit.toList l' then addrCapture (l'.drop lit.length) else none))
      transcript.toList with
  | some g => cleanValue (String.mk g)
  | none => cleanValue transcript

/-! ## Input validation (`validateInput` in `useCheckoutFlow.ts`) -/

structure VRes where
  valid : Bool
  extractedValue : String
  error : String
deriving DecidableEq, Repr

/-- The global guard: the candidate contains an order-command phrase. -/
def hasCommandPhrase (value : String) : Bool :=
  COMMAND_PHRASES.any (fun p => containsSub (jsLower (jsTrim value)) p)

/-- `^[^\s@]+@[^\s@]+\.[^\s@]+$`: a nonempty `@`-free, whitespace-free local
part, a single `@`, and a domain containing a `.` that is neither its first
nor its last character. -/
def emailRegexTest (s : String) : Bool :=
  let l := s.toList
  let a := l.takeWhile (fun c => c ≠ '@')
  match l.drop a.length with
  | '@' :: b =>
    !a.isEmpty && a.all (fun c => !c.isWhitespace) &&
    !b.isEmpty && b.all (fun c => !c.isWhitespace) && !b.contains '@' &&
    ((b.drop 1).dropLast.contains '.')
  | _ => false

/-- `\s+at\s+` at one position (for the `/gi` substitution with `@`). -/
def wsAtWsAt (l : List Char) : Option Nat :=
  let w := wsRunLen l
  if w = 0 then none
  else
    firstSome? (descRange w) (fun k =>
      if litCI ("at").toList (l.drop k) then
        let w2 := wsRunLen (l.drop (k + 2))
        if w2 = 0 then none else some (k + 2 + w2)
      else none)

/-- `\s+dot\s+` at one position (for the `/gi` substitution with `.`). -/
def wsDotWsAt (l : List Char) : Option Nat :=
  let w := wsRunLen l
  if w = 0 then none
  else
    firstSome? (descRange w) (fun k =>
      if litCI ("dot").toList (l.drop k) then
        let w2 := wsRunLen (l.drop (k + 3))
        if w2 = 0 then none else some (k + 3 + w2)
      else none)

/-- `validateInput` of `useCheckoutFlow.ts`: per-step structural validation
returning the canonical value or a correction prompt. -/
def validateInput (step : CheckoutStep) (value : String) : VRes :=
  let trimmed := jsTrim value
  let lowerValue := jsLower trimmed
  if hasCommandPhrase value then
    ⟨false, "", "I still need this information before we can complete your order."⟩
  else
    match step with
    | .name | .cardName =>
      if trimmed.toList.any Char.isDigit then
        ⟨false, "", "Names usually don\x27t contain numbers. Please say your name again."⟩
      else
        let nameWords := (splitWs trimmed).filter (fun w => 2 ≤ w.length)
        if nameWords.length < 1 then
          ⟨false, "", "Please say your name."⟩
        else if ["yes", "no", "yep", "nope", "sure", "ok"].contains
            (filterChars (fun c => c.isAlphanum || c == '_') lowerValue) then
          ⟨false, "",
            if step = .cardName then "Please say the name on your card."
            else "Please say the full name."⟩
        else if containsSub lowerValue "what" || containsSub lowerValue "card" ||
            containsSub lowerValue "can" || containsSub lowerValue "how" ||
            containsSub lowerValue "pay" then
          ⟨false, "", "Please say only your name."⟩
        else ⟨true, trimmed, ""⟩
    | .email =>
      let subbed :=
        filterChars (fun c => !c.isWhitespace)
          (replaceScan wsDotWsAt ['.'] (replaceScan wsAtWsAt ['@'] trimmed))
      let emailValue :=
        if containsSub subbed "@" then subbed
        else
          match findSuffix? (spokenEmailAt 1) trimmed.toList with
          | some (g1, g2, g3) =>
            filterChars (fun c => !c.isWhitespace) g1 ++ "@" ++
            filterChars (fun c => !c.isWhitespace) g2 ++ "." ++
            filterChars (fun c => !c.isWhitespace) g3
          | none => subbed
      if emailRegexTest emailValue then ⟨true, emailValue, ""⟩
      else
        ⟨false, "",
         "I didn\x27t catch a valid email. Please say it like: name at gmail dot com."⟩
    | .address =>
      let addressWords := splitWs trimmed
      if addressWords.length < 3 then
        ⟨false, "", "Please say your complete shipping address including street and city."⟩
      else if !(trimmed.toList.any Char.isDigit) && addressWords.length < 4 then
        ⟨false, "", "Please say your full address with house number and street."⟩
      else if containsSub lowerValue "what" || containsSub lowerValue "address" ||
          containsSub lowerValue "shipping" then
        ⟨false, "", "Please say only your address."⟩
      else ⟨true, trimmed, ""⟩
    | .phone =>
      let phoneDigits := filterChars Char.isDigit trimmed
      if phoneDigits.length < 10 then
        ⟨false, "", "Please say your complete 10-digit phone number."⟩
      else
        ⟨true,
         "(" ++ sliceStr phoneDigits 0 3 ++ ") " ++ sliceStr phoneDigits 3 6 ++
           "-" ++ sliceStr phoneDigits 6 10, ""⟩
    | .cardNumber =>
      let cardDigits := filterChars Char.isDigit trimmed
      if cardDigits.length < 13 || 19 < cardDigits.length then
        ⟨false, "", "Please say all 16 digits of your card number."⟩
      else ⟨true, String.intercalate " " (chunk4 cardDigits.toList), ""⟩
    | .expiryDate =>
      match digitRuns trimmed with
      | n1 :: n2 :: _ =>
        let month := pad2 n1
        let year := if n2.length == 4 then dropStr n2 2 else n2
        let monthNum := digitsToNat month.toList
        if monthNum < 1 || 12 < monthNum then
          ⟨false, "", "Please say a valid month between 1 and 12."⟩
        else ⟨true, month ++ "/" ++ year, ""⟩
      | _ =>
        ⟨false, "", "Please say the expiry date as month and year, like 12 25."⟩
    | .cvv =>
      let cvvDigits := filterChars Char.isDigit trimmed
      if cvvDigits.length < 3 || 4 < cvvDigits.length then
        ⟨false, "", "The CVV should be 3 or 4 digits."⟩
      else ⟨true, cvvDigits, ""⟩
    | _ => ⟨true, trimmed, ""⟩

/-! ## The checkout dialogue state machine (`useCheckoutFlow.ts`) -/

/-- `extractValue`: step-specific natural-language extraction. -/
def extractValue (step : CheckoutStep) (transcript : String) : String :=
  match step with
  | .name | .cardName => extractName transcript
  | .email => extractEmail transcript
  | .address => extractAddress transcript
  | .phone => extractPhone transcript
  | .cardNumber => filterChars Char.isDigit transcript
  | .expiryDate => extractExpiryDate transcript
  | .cvv => filterChars Char.isDigit transcript
  | _ => cleanValue transcript

/-- `isEcho`: the transcript repeats assistant speech (any known phrase, any
prompt, or a bare acknowledgment word). -/
def isEcho (transcript : String) : Bool :=
  let lowerT := jsTrim (jsLower transcript)
  ASSISTANT_PHRASES.any (fun phrase => containsSub lowerT phrase) ||
  allSteps.any (fun st =>
    let prompt := stepPrompt st
    prompt ≠ "" &&
    (let cleanP := filterChars
        (fun c => ('a' ≤ c && c ≤ 'z') || c.isDigit || c == ' ') (jsLower prompt)
     let cleanT := filterChars
        (fun c => ('a' ≤ c && c ≤ 'z') || c.isDigit || c == ' ') lowerT
     5 < cleanT.length && containsSub cleanP cleanT)) ||
  (match splitWs lowerT with
   | [w] => ["yes", "no", "okay", "sure", "ok", "yeah", "yep", "nope"].contains w
   | _ => false)

/-- The transcript is a bare conversational filler
(`IGNORE_PHRASES.includes(lowerTranscript.trim().replace(/[^a-z ]/g, ""))`). -/
def isIgnoredFiller (transcript : String) : Bool :=
  IGNORE_PHRASES.contains
    (filterChars (fun c => ('a' ≤ c && c ≤ 'z') || c == ' ')
      (jsTrim (jsLower transcript)))

/-- The correction/navigation command test of `processAnswer` step 0, on the
lowercased transcript. -/
def corrCmd (lowerT : String) : Bool :=
  containsSub lowerT "go back" || containsSub lowerT "previous step" ||
  (containsSub lowerT "wrong" && lowerT.length < 20)

def idxOf? {α : Type} [DecidableEq α] (l : List α) (a : α) : Option Nat :=
  l.findIdx? (fun x => x = a)

/-- `getNextStep`. -/
def getNextStep (current : CheckoutStep) : CheckoutStep :=
  match idxOf? STEP_ORDER current with
  | none => .complete
  | some i =>
    if STEP_ORDER.length - 1 ≤ i then .complete
    else STEP_ORDER.getD (i + 1) .complete

/-- The previous step of the fixed order, when `STEP_ORDER.indexOf` is
positive (the guard of the correction branch). -/
def prevStepOf (c : CheckoutStep) : Option CheckoutStep :=
  match idxOf? STEP_ORDER c with
  | some (i + 1) => some (STEP_ORDER.getD i .idle)
  | _ => none

open CheckoutStep in
/-- The steps mapped to a profile field by `fieldMapping`. -/
def fieldSteps : List CheckoutStep :=
  [name, email, address, phone, cardName, cardNumber, expiryDate, cvv]

def isFieldStep (c : CheckoutStep) : Bool := fieldSteps.contains c

/-- The mutable state owned by the checkout flow hook: `currentStep`,
`collectedData`, `isFlowActiveRef`, `lastStepChangeRef` (ms timestamp). -/
structure FlowState where
  currentStep : CheckoutStep
  collected : List (CheckoutStep × String)
  flowActive : Bool
  lastStepChange : Nat
deriving DecidableEq, Repr

/-- JS object key update `{ ...data, [step]: value }`. -/
def setField (l : List (CheckoutStep × String)) (k : CheckoutStep)
    (v : String) : List (CheckoutStep × String) :=
  (k, v) :: l.filter (fun p => p.1 ≠ k)

/-- The result of `processAnswer` together with the state after the call and
the profile-store write (`updateUserInfo`) it performed, if any. -/
structure PAResult where
  success : Bool
  nextPrompt : String
  shouldConfirmOrder : Option Bool
  state : FlowState
  profileWrite : Option (CheckoutStep × String)
deriving DecidableEq, Repr

/-- `processAnswer(transcript)` at time `now`. -/
def processAnswer (s : FlowState) (now : Nat) (transcript : String) : PAResult :=
  if s.currentStep = .idle then ⟨false, "", none, s, none⟩
  else if now - s.lastStepChange < 500 then ⟨false, "", none, s, none⟩
  else
    let lowerT := jsLower transcript
    match (if corrCmd lowerT then prevStepOf s.currentStep else none) with
    | some prev =>
      ⟨true, "Okay, let\x27s fix that. " ++ stepPrompt prev, none,
       { s with currentStep := prev, lastStepChange := now }, none⟩
    | none =>
      if s.currentStep = .confirm then
        if containsSub lowerT "yes" || containsSub lowerT "place" ||
            containsSub lowerT "confirm" || containsSub lowerT "proceed" then
          ⟨true, stepPrompt .complete, some true,
           { s with
               currentStep := CheckoutStep.complete
               flowActive := false
               lastStepChange := now }, none⟩
        else if containsSub lowerT "no" || containsSub lowerT "cancel" then
          ⟨true, "Order cancelled. Let me know if you need anything else.",
           none, { s with currentStep := CheckoutStep.idle, flowActive := false }, none⟩
        else ⟨false, "Please say yes to confirm or no to cancel.", none, s, none⟩
      else if isEcho transcript then ⟨false, "", none, s, none⟩
      else if isIgnoredFiller transcript then ⟨false, "", none, s, none⟩
      else
        let extracted := extractValue s.currentStep transcript
        let validation := validateInput s.currentStep extracted
        if !validation.valid then ⟨false, validation.error, none, s, none⟩
        else
          let nxt := getNextStep s.currentStep
          ⟨true, stepPrompt nxt, none,
           { currentStep := nxt
             collected := setField s.collected s.currentStep validation.extractedValue
             flowActive := if nxt = .complete then false else s.flowActive
             lastStepChange := now },
           if isFieldStep s.currentStep then
             some (s.currentStep, validation.extractedValue)
           else none⟩

/-! ## Session resilience manager (`VapiAssistant.tsx`)

The refs of the component are modelled explicitly.  JS `setTimeout` handles
are given fresh ids; `reconnectTimeoutRef` stores the id of the most recently
scheduled timer.  Note that scheduling a new timer overwrites the ref without
clearing the previous timeout, so an earlier timer can stay live (orphaned)
and still fire.  Firing a reconnect timer invokes `vapi.start` only when both
`ASSISTANT_ID` and `vapiRef.current` are set. -/

structure SessionState where
  sessionActive : Bool
  wasActive : Bool
  reconnectAttempts : Nat
  pendingTimers : List Nat
  timerRef : Option Nat
  nextTimerId : Nat
  vapiPresent : Bool
deriving DecidableEq, Repr

/-- `reconnectTimeoutRef.current = setTimeout(...)` (no clear of a previous
timer). -/
def scheduleReconnect (s : SessionState) : SessionState :=
  { s with
      pendingTimers := s.nextTimerId :: s.pendingTimers
      timerRef := some s.nextTimerId
      nextTimerId := s.nextTimerId + 1 }

/-- `if (reconnectTimeoutRef.current) { clearTimeout(...); ... = null; }`. -/
def clearReconnectTimer (s : SessionState) : SessionState :=
  match s.timerRef with
  | some i => { s with pendingTimers := s.pendingTimers.erase i, timerRef := none }
  | none => s

/-- The `call-start` handler. -/
def onCallStart (s : SessionState) : SessionState :=
  { s with sessionActive := true, reconnectAttempts := 0 }

/-- The `call-end` handler; the `Bool` reports whether a reconnect was
scheduled. -/
def onCallEnd (s : SessionState) : SessionState × Bool :=
  let s1 := { s with sessionActive := false }
  let (s2, sch) :=
    if s1.wasActive && s1.reconnectAttempts < 3 then
      (scheduleReconnect { s1 with reconnectAttempts := s1.reconnectAttempts + 1 },
       true)
    else (s1, false)
  (if !s2.wasActive then
     { s2 with vapiPresent := false, reconnectAttempts := 0 }
   else s2, sch)

/-- The fatal branch of the `error` handler (daily-error / ejection / 401). -/
def onErrorFatal (s : SessionState) : SessionState :=
  clearReconnectTimer { s with reconnectAttempts := 999, sessionActive := false }

/-- The non-fatal branch of the `error` handler; the `Bool` reports whether a
reconnect was scheduled. -/
def onErrorTransient (s : SessionState) : SessionState × Bool :=
  let s1 := { s with sessionActive := false }
  if s1.reconnectAttempts < 3 then
    (scheduleReconnect { s1 with reconnectAttempts := s1.reconnectAttempts + 1 },
     true)
  else (s1, false)

/-- A scheduled timeout fires: its callback calls `vapiRef.current.start`
exactly when `ASSISTANT_ID` (`aid`) and the instance are present.  The `Bool`
reports whether a reconnect start was fired. -/
def onTimerFire (aid : Bool) (i : Nat) (s : SessionState) :
    SessionState × Bool :=
  if s.pendingTimers.contains i then
    ({ s with pendingTimers := s.pendingTimers.erase i }, aid && s.vapiPresent)
  else (s, false)

/-- The manual-stop branch of `toggleCall` (session active): clear the timer
ref, set the 999 sentinel, drop the active flag, then `vapi.stop()` (whose
`call-end` event is delivered separately). -/
def manualStop (s : SessionState) : SessionState :=
  { clearReconnectTimer s with reconnectAttempts := 999, wasActive := false }

/-- Events that can be delivered without any new manual start or successful
connection. -/
inductive SessionEv
  | callEnd
  | errFatal
  | errTransient
  | timerFire (i : Nat)
deriving DecidableEq, Repr

/-- One event step; the `Bool` is true when a reconnect `start` is fired. -/
def sessionStep (aid : Bool) (s : SessionState) : SessionEv → SessionState × Bool
  | .callEnd => ((onCallEnd s).1, false)
  | .errFatal => (onErrorFatal s, false)
  | .errTransient => ((onErrorTransient s).1, false)
  | .timerFire i => onTimerFire aid i s

/-- Run a trace of events, counting fired reconnect starts. -/
def runSession (aid : Bool) (s : SessionState) : List SessionEv → SessionState × Nat
  | [] => (s, 0)
  | e :: es =>
    let r := sessionStep aid s e
    let rest := runSession aid r.1 es
    (rest.1, (if r.2 then 1 else 0) + rest.2)

/-! ## Transcript acceptance (`message` handler of `VapiAssistant.tsx`) -/

/-- The suppression context of the `message` handler. -/
structure MsgCtx where
  speechActive : Bool
  now : Nat
  lastSpeechEnd : Nat
  lastAssistantMessage : String
deriving Repr

/-- `toLowerCase().trim().replace(/[^a-z0-9]/g, "")`. -/
def cleanAlnum (s : String) : String :=
  filterChars (fun c => ('a' ≤ c && c ≤ 'z') || c.isDigit) (jsTrim (jsLower s))

/-- Whether a final transcript is passed on to `processVoiceCommand`:
reject while assistant speech is active, within 2000 ms of its end, on
overlap with the last assistant message, or when empty. -/
def acceptTranscript (ctx : MsgCtx) (t : String) : Bool :=
  if ctx.speechActive then false
  else if ctx.now - ctx.lastSpeechEnd < 2000 then false
  else if ctx.lastAssistantMessage != "" &&
      (let cT := cleanAlnum t
       let cA := cleanAlnum ctx.lastAssistantMessage
       5 < cA.length && (containsSub cA cT || containsSub cT cA)) then false
  else t != ""

/-! ## Intent classifier and router (`useVoiceCommandHandlers.ts`) -/

/-- `classifyPrimaryIntent`: the oracle outcome is either a failure (the
`catch` returns `"general_command"`) or free text, which is trimmed and
returned as the label. -/
def classifyPrimaryIntent : Except String String → String
  | .error _ => "general_command"
  | .ok s => jsTrim s

/-- The handler paths of the `switch (primaryIntent)` in
`processVoiceCommand`; `notRecognized` is the fall-through for a label
matching no case. -/
inductive RouteTarget
  | navigation | orderCompletion | userInfo | cartNav | productAction
  | productNavigation | removeFilter | categoryNavigation | applyFilter
  | clearAllFiltersRoute | generalCommand | notRecognized
deriving DecidableEq, Repr

def knownIntentLabels : List String :=
  ["navigation", "order_completion", "user_info", "cart", "product_action",
   "product_navigation", "remove_filter", "category_navigation",
   "apply_filter", "clear_filters", "general_command"]

/-- The dispatch of the `switch (primaryIntent)` statement. -/
def routeIntent (label : String) : RouteTarget :=
  if label = "navigation" then .navigation
  else if label = "order_completion" then .orderCompletion
  else if label = "user_info" then .userInfo
  else if label = "cart" then .cartNav
  else if label = "product_action" then .productAction
  else if label = "product_navigation" then .productNavigation
  else if label = "remove_filter" then .removeFilter
  else if label = "category_navigation" then .categoryNavigation
  else if label = "apply_filter" then .applyFilter
  else if label = "clear_filters" then .clearAllFiltersRoute
  else if label = "general_command" then .generalCommand
  else .notRecognized

/-! ## Direct command rules (`handleDirectCommands`)

The cart/navigation regexes are flat concatenations of literal alternations,
optional alternations and whitespace quantifiers; `runToks` matches them with
ordered-alternation backtracking.  Every element following a whitespace
quantifier starts with a non-whitespace character, so the quantifier commits
to the maximal whitespace run. -/

inductive Tok
  | lits (ws : List String)
  | opt (ws : List String)
  | ws1
  | ws0
deriving Repr

/-- Match a token sequence against a prefix of `l` (with backtracking over
the alternations). -/
def runToks : List Tok → List Char → Bool
  | [], _ => true
  | .lits ws :: ts, l =>
    ws.any (fun w => w.toList.isPrefixOf l && runToks ts (l.drop w.length))
  | .opt ws :: ts, l =>
    ws.any (fun w => w.toList.isPrefixOf l && runToks ts (l.drop w.length)) ||
    runToks ts l
  | .ws1 :: ts, l =>
    decide (1 ≤ wsRunLen l) && runToks ts (l.drop (wsRunLen l))
  | .ws0 :: ts, l => runToks ts (l.drop (wsRunLen l))

/-- Unanchored `.test`: some start position admits a match. -/
def testPat (ts : List Tok) (text : String) : Bool :=
  anySuffix (runToks ts) text.toList

/-- The three cart-query regexes (first `if` of `handleDirectCommands`). -/
def cartQueryRule (text : String) : Bool :=
  testPat
    [.lits ["how many", "how much", "what", "count", "items", "item",
            "products", "product", "things", "thing"], .ws1,
     .opt ["items", "item", "products", "product", "things", "thing"], .ws0,
     .lits ["are", "do", "is", "in"], .ws1,
     .opt ["in", "my", "the"], .ws0,
     .lits ["cart", "basket", "bag"]] text ||
  testPat
    [.lits ["cart", "basket", "bag"], .ws1,
     .lits ["has", "have", "contains", "items", "item", "count", "quantity"]]
    text ||
  testPat
    [.lits ["total", "number", "amount"], .ws1,
     .lits ["of", "items", "item", "products", "product"], .ws1,
     .opt ["in", "my", "the"], .ws0,
     .lits ["cart", "basket"]] text

/-- The two cart-total regexes. -/
def cartTotalRule (text : String) : Bool :=
  testPat
    [.lits ["how much", "what", "total", "subtotal", "price", "cost", "value"],
     .ws1,
     .lits ["is", "are", "does", "will", "is the", "total", "subtotal",
            "price", "cost", "value"], .ws1,
     .opt ["my", "the"], .ws0,
     .lits ["cart", "basket", "order", "items", "item", "total", "subtotal"]]
    text ||
  testPat
    [.lits ["cart", "basket", "order", "total", "subtotal"], .ws1,
     .lits ["is", "are", "total", "subtotal", "price", "cost", "value",
            "worth"]] text

/-- JS `\w`. -/
def wordChar (c : Char) : Bool := c.isAlphanum || c == '_'

/-- End of `/(^|\b)(go\s+)?kw(\b|$)/`: after `kw`, either the end of the
string or a non-word character. -/
def endBoundary : List Char → Bool
  | [] => true
  | c :: _ => !wordChar c

/-- `(go\s+)?kw(\b|$)` at one position. -/
def navKwAt (kw : List Char) (l : List Char) : Bool :=
  (("go").toList.isPrefixOf l &&
    (let r := l.drop 2
     decide (1 ≤ wsRunLen r) &&
     kw.isPrefixOf (r.drop (wsRunLen r)) &&
     endBoundary ((r.drop (wsRunLen r)).drop kw.length))) ||
  (kw.isPrefixOf l && endBoundary (l.drop kw.length))

/-- `(^|\b)` holds before the match: start of string, or a non-word previous
character (the match itself begins with a word character). -/
def boundaryOk : Option Char → Bool
  | none => true
  | some c => !wordChar c

def navScan (kw : List Char) : Option Char → List Char → Bool
  | prev, [] => boundaryOk prev && navKwAt kw []
  | prev, c :: t => (boundaryOk prev && navKwAt kw (c :: t)) || navScan kw (some c) t

/-- `/(^|\b)(go\s+)?home(\b|$)/`-style navigation rules. -/
def navRule (kw : String) (text : String) : Bool :=
  navScan kw.toList none text.toList

/-- `/(open|go to|show)\s+cart/`. -/
def openCartRule (text : String) : Bool :=
  testPat [.lits ["open", "go to", "show"], .ws1, .lits ["cart"]] text

/-- `/(checkout|proceed to payment|go to payment|pay now|buy now)/`. -/
def checkoutRule (text : String) : Bool :=
  containsSub text "checkout" || containsSub text "proceed to payment" ||
  containsSub text "go to payment" || containsSub text "pay now" ||
  containsSub text "buy now"

def catVerbs : List String :=
  ["go to", "open", "show", "view", "see", "get", "want", "need"]

def catWords : List String := ["gym", "yoga", "running", "jogging"]

def catWordAt (l : List Char) : Option String :=
  firstSome? catWords (fun w => if w.toList.isPrefixOf l then some w else none)

/-- `/(go to|open|show|view|see|get|want|need)\s+(.*?)?(gym|yoga|running|jogging)/`:
group 3 — a category verb followed by at least one whitespace character with a
category word anywhere later (the lazy gap takes the earliest occurrence). -/
def catMatchAt (l : List Char) : Option String :=
  firstSome? catVerbs (fun v =>
    if v.toList.isPrefixOf l then
      match l.drop v.length with
      | c :: t => if c.isWhitespace then findSuffix? catWordAt t else none
      | [] => none
    else none)

def catMatch (text : String) : Option String :=
  findSuffix? catMatchAt text.toList

/-- `/(clear|reset|remove)\s+(all\s+)?filters?/`. -/
def clearFiltersRule (text : String) : Bool :=
  testPat [.lits ["clear", "reset", "remove"], .ws1, .lits ["all"], .ws1,
           .lits ["filters", "filter"]] text ||
  testPat [.lits ["clear", "reset", "remove"], .ws1,
           .lits ["filters", "filter"]] text

/-- `/(size|select size)\s+([a-z0-9]+)/`: group 2. -/
def sizeMatchAt (l : List Char) : Option String :=
  firstSome? ["size", "select size"] (fun w =>
    if w.toList.isPrefixOf l then
      let rest := l.drop w.length
      let k := wsRunLen rest
      if 1 ≤ k then
        let r2 := rest.drop k
        let m := classRunLen (fun c => ('a' ≤ c && c ≤ 'z') || c.isDigit) r2
        if 1 ≤ m then some (String.mk (r2.take m)) else none
      else none
    else none)

def sizeMatch (text : String) : Option String :=
  findSuffix? sizeMatchAt text.toList

/-- `\s+(\d{1,2})` after an alternative: the parsed quantity. -/
def qtyAfter (rest : List Char) : Option Nat :=
  let k := wsRunLen rest
  if 1 ≤ k then
    let r2 := rest.drop k
    let m := min (classRunLen Char.isDigit r2) 2
    if 1 ≤ m then some (digitsToNat (r2.take m)) else none
  else none

/-- `\s+to` then `\s+(\d{1,2})`. -/
def qtySetTo (r2 : List Char) : Option Nat :=
  let k2 := wsRunLen r2
  if 1 ≤ k2 && ("to").toList.isPrefixOf (r2.drop k2) then
    qtyAfter ((r2.drop k2).drop 2)
  else none

/-- `/(quantity|set(\s+quantity)?\s+to|set)\s+(\d{1,2})/`: group 3 parsed. -/
def qtyAltAt (l : List Char) : Option Nat :=
  firstSome? [0, 1, 2] (fun i =>
    match i with
    | 0 => if ("quantity").toList.isPrefixOf l then qtyAfter (l.drop 8) else none
    | 1 =>
      if ("set").toList.isPrefixOf l then
        let r := l.drop 3
        let tryWith : Option Nat :=
          let k := wsRunLen r
          if 1 ≤ k && ("quantity").toList.isPrefixOf (r.drop k) then
            qtySetTo ((r.drop k).drop 8)
          else none
        match tryWith with
        | some q => some q
        | none => qtySetTo r
      else none
    | _ => if ("set").toList.isPrefixOf l then qtyAfter (l.drop 3) else none)

def qtyMatch (text : String) : Option Nat :=
  findSuffix? qtyAltAt text.toList

/-- `/(add to cart|add this|add item)/`. -/
def addToCartRule (text : String) : Bool :=
  containsSub text "add to cart" || containsSub text "add this" ||
  containsSub text "add item"

structure ProductInfo where
  sizes : Option (List String)
deriving DecidableEq, Repr

/-- The page-dependent inputs of `handleDirectCommands`. -/
structure DirectCtx where
  isProductPage : Bool
  currentProduct : Option ProductInfo
  selectedSize : Option String
deriving DecidableEq, Repr

/-- Which direct rule consumed the transcript (the side effect performed is
identified by the constructor). -/
inductive DirectAction
  | cartQuery | cartTotalQuery | navHome | navBack | openCart | checkoutNav
  | categoryNav (cat : String) | clearAllFilters
  | selectSize (sz : String) | sizeUnavailable (sz : String)
  | setQty (q : Nat) | addToCart | selectSizeFirst
deriving DecidableEq, Repr

/-- The product-detail-page rules, in fall-through order (a size match with a
size-less product and a non-positive quantity both fall through). -/
def productRules (ctx : DirectCtx) (text : String) : Option DirectAction :=
  let szAct : Option DirectAction :=
    match sizeMatch text, ctx.currentProduct with
    | some req, some p =>
      match p.sizes with
      | some sizes =>
        match sizes.find? (fun sz => jsLower sz = jsLower req) with
        | some m => some (.selectSize m)
        | none => some (.sizeUnavailable req)
      | none => none
    | _, _ => none
  match szAct with
  | some a => some a
  | none =>
    match (match qtyMatch text with
           | some q => if 0 < q then some (DirectAction.setQty q) else none
           | none => none) with
    | some a => some a
    | none =>
      if addToCartRule text then
        some (if ctx.selectedSize.isSome then DirectAction.addToCart
              else DirectAction.selectSizeFirst)
      else none

/-- `handleDirectCommands`: the deterministic rules tried before any oracle
call; `none` models `return false`. -/
def handleDirectCommands (ctx : DirectCtx) (transcript : String) :
    Option DirectAction :=
  let text := jsTrim (jsLower transcript)
  if cartQueryRule text then some .cartQuery
  else if cartTotalRule text then some .cartTotalQuery
  else if navRule "home" text then some .navHome
  else if navRule "back" text then some .navBack
  else if openCartRule text then some .openCart
  else if checkoutRule text then some .checkoutNav
  else
    match catMatch text with
    | some cat => some (.categoryNav cat)
    | none =>
      if clearFiltersRule text then some .clearAllFilters
      else if ctx.isProductPage && ctx.currentProduct.isSome then
        productRules ctx text
      else none

/-- `processVoiceCommand` consults the classification oracle exactly when no
direct rule consumed the transcript. -/
def oracleConsulted (ctx : DirectCtx) (transcript : String) : Bool :=
  (handleDirectCommands ctx transcript).isNone

/-! ## Claim C2: expiry-date extraction of spoken number words -/

/-- C2 (counterexample): `extractExpiryDate "twelve twenty five"` does not
yield `"12/25"` — the extractor performs no word-to-number conversion, returns
the text unchanged, and the expiry validation then rejects it. -/
theorem c2_counterexample :
    extractExpiryDate "twelve twenty five" = "twelve twenty five" ∧
    (validateInput .expiryDate (extractExpiryDate "twelve twenty five")).valid
      = false := by
  constructor
  · rfl
  · rfl

/-- C2 (amended): for the digit transcript `"12 25"`, extraction yields
`"12/25"` and validation accepts it as the canonical value; the spoken-word
form `"twelve twenty five"` is rejected by validation. -/
theorem c2_expiry_digits :
    extractExpiryDate "12 25" = "12/25" ∧
    validateInput .expiryDate (extractExpiryDate "12 25") =
      ⟨true, "12/25", ""⟩ ∧
    (validateInput .expiryDate "twelve twenty five").valid = false := by
  refine ⟨rfl, ?_, rfl⟩
  rfl

/-! ## Claim C3: the reconnect counter is bounded at 3 -/

/-- C3: from a state with the active flag set and a zero attempt counter,
three consecutive `call-end` events each schedule a reconnect, the fourth
schedules none (the counter has reached 3), and every `call-start` resets the
counter to 0. -/
theorem c3_reconnect_bound (s : SessionState)
    (hw : s.wasActive = true) (ha : s.reconnectAttempts = 0) :
    (onCallEnd s).2 = true ∧
    (onCallEnd (onCallEnd s).1).2 = true ∧
    (onCallEnd (onCallEnd (onCallEnd s).1).1).2 = true ∧
    (onCallEnd (onCallEnd (onCallEnd (onCallEnd s).1).1).1).2 = false ∧
    (onCallEnd (onCallEnd (onCallEnd (onCallEnd s).1).1).1).1.reconnectAttempts
      = 3 ∧
    (∀ s' : SessionState, (onCallStart s').reconnectAttempts = 0) := by
  simp [onCallEnd, scheduleReconnect, onCallStart, hw, ha]

/-- C3 (witness): the bound at a concrete fresh session state. -/
theorem c3_witness :
    (onCallEnd (⟨true, true, 0, [], none, 0, true⟩ : SessionState)).2 = true ∧
    (onCallEnd (onCallEnd
      (⟨true, true, 0, [], none, 0, true⟩ : SessionState)).1).2 = true ∧
    (onCallEnd (onCallEnd (onCallEnd
      (⟨true, true, 0, [], none, 0, true⟩ : SessionState)).1).1).2 = true ∧
    (onCallEnd (onCallEnd (onCallEnd (onCallEnd
      (⟨true, true, 0, [], none, 0, true⟩ : SessionState)).1).1).1).2 = false ∧
    (onCallEnd (onCallEnd (onCallEnd (onCallEnd
      (⟨true, true, 0, [], none, 0, true⟩
        : SessionState)).1).1).1).1.reconnectAttempts = 3 ∧
    (∀ s' : SessionState, (onCallStart s').reconnectAttempts = 0) :=
  c3_reconnect_bound ⟨true, true, 0, [], none, 0, true⟩ rfl rfl

/-! ## Claim C5: rejection of transcripts shorter than two characters -/

/-- C5 (counterexample): the single-character transcript `"a"` is accepted by
the message-handler acceptance check when no suppression context applies — no
length-below-two rejection exists in the code. -/
theorem c5_counterexample :
    String.length "a" < 2 ∧
    acceptTranscript ⟨false, 5000, 0, ""⟩ "a" = true := by
  exact ⟨by decide, rfl⟩

/-- C5 (amended): only the empty transcript is unconditionally rejected; any
nonempty transcript — including one of length 1 — is accepted whenever system
speech is inactive, the 2000 ms suppression window has elapsed, and no last
assistant message is recorded. -/
theorem c5_accept_characterisation :
    (∀ ctx : MsgCtx, acceptTranscript ctx "" = false) ∧
    (∀ (ctx : MsgCtx) (t : String),
      ctx.speechActive = false →
      2000 ≤ ctx.now - ctx.lastSpeechEnd →
      ctx.lastAssistantMessage = "" →
      t ≠ "" →
      acceptTranscript ctx t = true) := by
  constructor
  · intro ctx
    unfold acceptTranscript
    split
    · rfl
    · split
      · rfl
      · split
        · rfl
        · simp
  · intro ctx t h1 h2 h3 h4
    unfold acceptTranscript
    rw [h1, h3]
    simp [Nat.not_lt.mpr h2, h4]

/-- C5 (witness): the characterisation at concrete contexts — the empty
transcript is dropped even in a fully quiet context, and the two-character
transcript `"ok"` is accepted there. -/
theorem c5_witness :
    acceptTranscript ⟨false, 5000, 0, ""⟩ "" = false ∧
    acceptTranscript ⟨false, 5000, 0, ""⟩ "ok" = true :=
  ⟨c5_accept_characterisation.1 ⟨false, 5000, 0, ""⟩,
   c5_accept_characterisation.2 ⟨false, 5000, 0, ""⟩ "ok" rfl (by decide) rfl
     (by decide)⟩

/-! ## Claim C6: phone validation -/

/-- C6 (counterexample): a candidate with eleven digits is accepted by phone
validation (only `< 10` digits is rejected), and the stored value is built
from the first ten digits — refuting "exactly 10 digits". -/
theorem c6_counterexample :
    (filterChars Char.isDigit (jsTrim "12345678901")).length = 11 ∧
    (validateInput .phone "12345678901").valid = true ∧
    (validateInput .phone "12345678901").extractedValue = "(123) 456-7890" := by
  refine ⟨by decide, rfl, rfl⟩

/-- C6 (amended): phone validation accepts a candidate exactly when it
contains no order-command phrase and at least ten digits after stripping
non-digits; on success the stored value is `(XXX) XXX-XXXX` built from the
first ten digits, and with fewer than ten digits it rejects with the 10-digit
correction prompt. -/
theorem c6_phone_validation (v : String) :
    ((validateInput .phone v).valid = true ↔
      (hasCommandPhrase v = false ∧
       10 ≤ (filterChars Char.isDigit (jsTrim v)).length)) ∧
    (hasCommandPhrase v = false →
      10 ≤ (filterChars Char.isDigit (jsTrim v)).length →
      validateInput .phone v =
        ⟨true,
         "(" ++ sliceStr (filterChars Char.isDigit (jsTrim v)) 0 3 ++ ") " ++
           sliceStr (filterChars Char.isDigit (jsTrim v)) 3 6 ++ "-" ++
           sliceStr (filterChars Char.isDigit (jsTrim v)) 6 10, ""⟩) ∧
    (hasCommandPhrase v = false →
      (filterChars Char.isDigit (jsTrim v)).length < 10 →
      validateInput .phone v =
        ⟨false, "", "Please say your complete 10-digit phone number."⟩) := by
  unfold validateInput
  by_cases hc : hasCommandPhrase v
  · simp [hc]
  · by_cases hl : (filterChars Char.isDigit (jsTrim v)).length < 10
    · simp [hc, hl, Nat.not_le.mpr hl]
    · simp [hc, hl, Nat.not_lt.mp hl]

/-- C6 (witness): the amended characterisation at the ten-digit candidate
`"5551234567"`. -/
theorem c6_witness :
    (validateInput .phone "5551234567").valid = true ∧
    validateInput .phone "5551234567" = ⟨true, "(555) 123-4567", ""⟩ := by
  have h := (c6_phone_validation "5551234567").2.1 (by decide) (by decide)
  exact ⟨by rw [h], h.trans (by decide)⟩

/-! ## Claim C8: classification failure handling -/

/-- C8 (counterexample): an unknown label such as `"foobar"` is not routed to
the `general_command` handling path — it falls through the router to the
"command not recognized" logging path. -/
theorem c8_counterexample :
    routeIntent "foobar" = RouteTarget.notRecognized ∧
    routeIntent "foobar" ≠ RouteTarget.generalCommand := by
  refine ⟨rfl, by decide⟩

/-- C8 (amended): classification is total — an oracle failure yields the
label `"general_command"`, which routes to the general-command handler; any
label outside the closed set routes to the "not recognized" fall-through
(still without an exception escaping). -/
theorem c8_degradation :
    (∀ e : String,
      classifyPrimaryIntent (Except.error e) = "general_command") ∧
    routeIntent "general_command" = RouteTarget.generalCommand ∧
    (∀ lbl : String, lbl ∉ knownIntentLabels →
      routeIntent lbl = RouteTarget.notRecognized) := by
  refine ⟨fun e => rfl, rfl, fun lbl h => ?_⟩
  simp only [knownIntentLabels, List.mem_cons, List.not_mem_nil, or_false,
    not_or] at h
  obtain ⟨h1, h2, h3, h4, h5, h6, h7, h8, h9, h10, h11⟩ := h
  unfold routeIntent
  rw [if_neg h1, if_neg h2, if_neg h3, if_neg h4, if_neg h5, if_neg h6,
    if_neg h7, if_neg h8, if_neg h9, if_neg h10, if_neg h11]

/-- C8 (witness): the degradation path at a concrete failed oracle call and a
concrete junk label. -/
theorem c8_witness :
    classifyPrimaryIntent (Except.error "network failure") = "general_command" ∧
    routeIntent "gibberish label" = RouteTarget.notRecognized :=
  ⟨c8_degradation.1 "network failure",
   c8_degradation.2.2 "gibberish label" (by decide)⟩

/-! ## Claim C1: validation failure does not advance the dialogue -/

/-- C1: while a collection step (name through cvv) is current and the grace
period has elapsed, a transcript that reaches the validation stage (it is not
an applicable correction command, not an echo and not an ignored filler) and
whose extracted value fails validation makes `processAnswer` return
`success = false` with the field's correction prompt as `nextPrompt`, leaves
the whole state (including `collectedFields`) unchanged, and forwards nothing
to the profile store. -/
theorem c1_validation_failure_no_advance
    (s : FlowState) (now : Nat) (t : String)
    (hstep : s.currentStep ∈ fieldSteps)
    (hgrace : ¬ now - s.lastStepChange < 500)
    (hcorr : corrCmd (jsLower t) = false ∨ prevStepOf s.currentStep = none)
    (hecho : isEcho t = false)
    (hfill : isIgnoredFiller t = false)
    (hval : (validateInput s.currentStep (extractValue s.currentStep t)).valid
      = false) :
    processAnswer s now t =
      ⟨false,
       (validateInput s.currentStep (extractValue s.currentStep t)).error,
       none, s, none⟩ := by
  have hidle : s.currentStep ≠ CheckoutStep.idle := by
    intro h
    rw [h] at hstep
    simp [fieldSteps] at hstep
  have hconf : s.currentStep ≠ CheckoutStep.confirm := by
    intro h
    rw [h] at hstep
    simp [fieldSteps] at hstep
  have hC : (if corrCmd (jsLower t) then prevStepOf s.currentStep else none)
      = none := by
    rcases hcorr with h | h
    · rw [h]
      rfl
    · by_cases hc : corrCmd (jsLower t) <;> simp [hc, h]
  unfold processAnswer
  rw [if_neg hidle, if_neg hgrace]
  simp only [hC, hecho, hfill, hval]
  rw [if_neg hconf]
  simp

/-- C1 (witness): the 5-digit answer `"12345"` during the `cvv` step is
rejected with the CVV correction prompt, with the state untouched. -/
theorem c1_witness :
    processAnswer ⟨CheckoutStep.cvv, [], true, 0⟩ 1000 "12345" =
      ⟨false, "The CVV should be 3 or 4 digits.", none,
       ⟨CheckoutStep.cvv, [], true, 0⟩, none⟩ := by
  have h := c1_validation_failure_no_advance ⟨CheckoutStep.cvv, [], true, 0⟩
    1000 "12345" (by decide) (by decide) (Or.inl (by decide)) (by decide)
    (by decide) (by decide)
  exact h.trans (by decide)

/-! ## Claim C4: reachable step transitions of the dialogue -/

/-- C4 (amended): during an active checkout dialogue, one `processAnswer`
call either leaves `currentStep` unchanged, advances it exactly one step in
the fixed order (`getNextStep`), decrements it exactly one step on a
correction command (only possible past the first step), or returns it to
`idle` when the confirm step receives a negative/cancel answer. -/
theorem c4_step_transitions (s : FlowState) (now : Nat) (t : String)
    (hstep : s.currentStep ∈ STEP_ORDER) :
    (processAnswer s now t).state.currentStep = s.currentStep ∨
    (processAnswer s now t).state.currentStep = getNextStep s.currentStep ∨
    (corrCmd (jsLower t) = true ∧
      prevStepOf s.currentStep
        = some (processAnswer s now t).state.currentStep) ∨
    (s.currentStep = CheckoutStep.confirm ∧
      (containsSub (jsLower t) "no" || containsSub (jsLower t) "cancel")
        = true ∧
      (processAnswer s now t).state.currentStep = CheckoutStep.idle) := by
  unfold processAnswer
  by_cases h1 : s.currentStep = CheckoutStep.idle
  · simp [h1]
  by_cases h2 : now - s.lastStepChange < 500
  · simp [h1, h2]
  simp only [if_neg h1, if_neg h2]
  split
  next prev heq =>
    by_cases hcc : corrCmd (jsLower t)
    · rw [if_pos hcc] at heq
      refine Or.inr (Or.inr (Or.inl ⟨hcc, ?_⟩))
      simpa using heq
    · rw [if_neg hcc] at heq
      exact absurd heq (by simp)
  next heq =>
    by_cases h3 : s.currentStep = CheckoutStep.confirm
    · rw [if_pos h3]
      split
      next h4 =>
        refine Or.inr (Or.inl ?_)
        simp only [h3]
        decide
      next h4 =>
        split
        next h5 => exact Or.inr (Or.inr (Or.inr ⟨h3, h5, by simp⟩))
        next h5 => exact Or.inl (by simp)
    · rw [if_neg h3]
      split
      next => exact Or.inl (by simp)
      next =>
        split
        next => exact Or.inl (by simp)
        next =>
          split
          next => exact Or.inl (by simp)
          next => exact Or.inr (Or.inl (by simp))

/-- C4 (counterexample): at the `confirm` step the answer `"no"` moves
`currentStep` to `idle` — a transition that is neither staying, nor one step
forward, nor the correction decrement (which from `confirm` would reach
`cvv`). -/
theorem c4_counterexample :
    (processAnswer ⟨CheckoutStep.confirm, [], true, 0⟩ 1000 "no").state.currentStep
      = CheckoutStep.idle ∧
    CheckoutStep.idle ≠ CheckoutStep.confirm ∧
    CheckoutStep.idle ≠ getNextStep CheckoutStep.confirm ∧
    prevStepOf CheckoutStep.confirm = some CheckoutStep.cvv := by
  refine ⟨rfl, by decide, by decide, by decide⟩

/-- C4 (witness): a valid name answer at the `name` step advances exactly one
step (to `email`). -/
theorem c4_witness :
    (processAnswer ⟨CheckoutStep.name, [], true, 0⟩ 1000 "John Smith").state.currentStep
        = CheckoutStep.name ∨
    (processAnswer ⟨CheckoutStep.name, [], true, 0⟩ 1000 "John Smith").state.currentStep
        = getNextStep CheckoutStep.name ∨
    (corrCmd (jsLower "John Smith") = true ∧
      prevStepOf CheckoutStep.name
        = some (processAnswer ⟨CheckoutStep.name, [], true, 0⟩ 1000
            "John Smith").state.currentStep) ∨
    (CheckoutStep.name = CheckoutStep.confirm ∧
      (containsSub (jsLower "John Smith") "no" ||
        containsSub (jsLower "John Smith") "cancel") = true ∧
      (processAnswer ⟨CheckoutStep.name, [], true, 0⟩ 1000
          "John Smith").state.currentStep = CheckoutStep.idle) :=
  c4_step_transitions ⟨CheckoutStep.name, [], true, 0⟩ 1000 "John Smith"
    (by decide)

/-! ## Claim C10: the confirm step applies no echo suppression -/

/-- C10 (amended): at the `confirm` step, after the grace period, every
transcript that is not a correction command and whose lowercased text contains
"yes", "place", "confirm" or "proceed" moves the machine to `complete` and
returns `shouldConfirmOrder = true` — the echo checks are never consulted. -/
theorem c10_confirm_affirmative (s : FlowState) (now : Nat) (t : String)
    (hstep : s.currentStep = CheckoutStep.confirm)
    (hgrace : ¬ now - s.lastStepChange < 500)
    (hcorr : corrCmd (jsLower t) = false)
    (haff : (containsSub (jsLower t) "yes" || containsSub (jsLower t) "place" ||
      containsSub (jsLower t) "confirm" ||
      containsSub (jsLower t) "proceed") = true) :
    processAnswer s now t =
      ⟨true, stepPrompt CheckoutStep.complete, some true,
       { s with currentStep := CheckoutStep.complete, flowActive := false, lastStepChange := now },
       none⟩ := by
  unfold processAnswer
  rw [hstep]
  simp [hcorr, haff, hgrace]

/-- C10 (witness): the system's own confirm prompt, heard back as a
transcript, contains "place" and therefore completes the order. -/
theorem c10_witness :
    processAnswer ⟨CheckoutStep.confirm, [], true, 0⟩ 600
        "I have all your details. Would you like me to place the order?" =
      ⟨true, "Your order has been placed successfully!", some true,
       ⟨CheckoutStep.complete, [], false, 600⟩, none⟩ := by
  have h := c10_confirm_affirmative ⟨CheckoutStep.confirm, [], true, 0⟩ 600
    "I have all your details. Would you like me to place the order?" rfl
    (by decide) (by decide) (by decide)
  exact h.trans (by decide)

/-- C10 (counterexample): the transcript `"go back yes"` contains "yes" after
the grace period while `confirm` is current, yet it does not transition to
`complete` and does not set `shouldConfirmOrder` — the correction branch
pre-empts the confirm branch. -/
theorem c10_counterexample :
    containsSub (jsLower "go back yes") "yes" = true ∧
    (processAnswer ⟨CheckoutStep.confirm, [], true, 0⟩ 600
        "go back yes").state.currentStep = CheckoutStep.cvv ∧
    (processAnswer ⟨CheckoutStep.confirm, [], true, 0⟩ 600
        "go back yes").shouldConfirmOrder = none := by
  refine ⟨by decide, rfl, rfl⟩

/-! ## Claim C7: no reconnection races past a fatal error or manual stop -/

/-- Reconnection is dead: either the sentinel is set with no live timer at
all, or the instance handle is cleared (so a firing timer starts nothing). -/
def reconnectDead (s : SessionState) : Prop :=
  (3 ≤ s.reconnectAttempts ∧ s.pendingTimers = []) ∨ s.vapiPresent = false

/-- `reconnectDead` is preserved by every end/error/timer event, and no such
event fires a reconnect start. -/
theorem reconnectDead_step (aid : Bool) (s : SessionState) (e : SessionEv)
    (h : reconnectDead s) :
    reconnectDead (sessionStep aid s e).1 ∧ (sessionStep aid s e).2 = false := by
  rcases h with ⟨h3, htim⟩ | hv
  · cases e with
    | callEnd =>
      refine ⟨?_, rfl⟩
      simp only [sessionStep, onCallEnd, scheduleReconnect]
      have : ¬ s.reconnectAttempts < 3 := Nat.not_lt.mpr h3
      simp only [this, Bool.and_false, if_false]
      by_cases hw : s.wasActive <;>
        simp [hw, reconnectDead, h3, htim]
    | errFatal =>
      refine ⟨?_, rfl⟩
      simp only [sessionStep, onErrorFatal, clearReconnectTimer]
      rcases s.timerRef with _ | i <;> simp [reconnectDead, htim]
    | errTransient =>
      refine ⟨?_, rfl⟩
      simp only [sessionStep, onErrorTransient]
      have : ¬ s.reconnectAttempts < 3 := Nat.not_lt.mpr h3
      simp [this, reconnectDead, h3, htim]
    | timerFire i =>
      simp only [sessionStep, onTimerFire, htim]
      simp [reconnectDead, h3, htim]
  · cases e with
    | callEnd =>
      refine ⟨Or.inr ?_, rfl⟩
      simp only [sessionStep, onCallEnd, scheduleReconnect]
      by_cases hc : s.reconnectAttempts < 3 <;>
        by_cases hw : s.wasActive <;>
          simp [hc, hw, hv]
    | errFatal =>
      refine ⟨?_, rfl⟩
      simp only [sessionStep, onErrorFatal, clearReconnectTimer]
      rcases s.timerRef with _ | i <;> simp [reconnectDead, hv]
    | errTransient =>
      refine ⟨?_, rfl⟩
      simp only [sessionStep, onErrorTransient, scheduleReconnect]
      by_cases hc : s.reconnectAttempts < 3 <;> simp [hc, reconnectDead, hv]
    | timerFire i =>
      simp only [sessionStep, onTimerFire]
      by_cases hc : i ∈ s.pendingTimers <;> simp [hc, reconnectDead, hv]

/-- Under `reconnectDead`, no trace of end/error/timer events ever fires a
reconnect start. -/
theorem reconnectDead_run (aid : Bool) (s : SessionState)
    (es : List SessionEv) (h : reconnectDead s) :
    (runSession aid s es).2 = 0 := by
  induction es generalizing s with
  | nil => rfl
  | cons e es ih =>
    obtain ⟨h1, h2⟩ := reconnectDead_step aid s e h
    simp only [runSession, h2, if_false]
    simpa using ih _ h1

/-- C7 (amended): applied to a state with no orphaned timer (the pending
timers are at most the one the ref points to), a fatal error or a manual stop
sets the 999 sentinel and cancels the pending timer, after which no sequence
of call-end, error or timer-expiry events ever fires a reconnect start: a
later call-end may reset the counter and a later error may schedule a timer,
but only after the instance handle is cleared, so the timer's callback starts
nothing. -/
theorem c7_no_reconnect_after_fatal_or_stop (aid : Bool) (s : SessionState)
    (es : List SessionEv)
    (hnoOrphan : s.pendingTimers = [] ∨
      ∃ i, s.timerRef = some i ∧ s.pendingTimers = [i]) :
    (onErrorFatal s).reconnectAttempts = 999 ∧
    (manualStop s).reconnectAttempts = 999 ∧
    (runSession aid (onErrorFatal s) es).2 = 0 ∧
    (runSession aid (manualStop s) es).2 = 0 := by
  have hTimF : (onErrorFatal s).pendingTimers = [] := by
    unfold onErrorFatal clearReconnectTimer
    rcases hnoOrphan with h | ⟨i, hr, ht⟩
    · rcases hs : s.timerRef with _ | j <;> simp [h, hs]
    · simp [hr, ht]
  have hTimM : (manualStop s).pendingTimers = [] := by
    unfold manualStop clearReconnectTimer
    rcases hnoOrphan with h | ⟨i, hr, ht⟩
    · rcases hs : s.timerRef with _ | j <;> simp [h, hs]
    · simp [hr, ht]
  have hAttF : (onErrorFatal s).reconnectAttempts = 999 := by
    unfold onErrorFatal clearReconnectTimer
    rcases hs : s.timerRef with _ | j <;> simp [hs]
  refine ⟨hAttF, rfl, ?_, ?_⟩
  · exact reconnectDead_run aid _ es
      (Or.inl ⟨by rw [hAttF]; norm_num, hTimF⟩)
  · exact reconnectDead_run aid _ es
      (Or.inl ⟨by norm_num [manualStop], hTimM⟩)

/-- C7 (witness): the guarantee at a concrete orphan-free session state and a
concrete event trace (an unexpected end, a transient error, and a timer
expiry). -/
theorem c7_witness :
    (onErrorFatal ⟨true, true, 0, [], none, 0, true⟩).reconnectAttempts
      = 999 ∧
    (manualStop ⟨true, true, 0, [], none, 0, true⟩).reconnectAttempts = 999 ∧
    (runSession true (onErrorFatal ⟨true, true, 0, [], none, 0, true⟩)
      [SessionEv.callEnd, SessionEv.errTransient, SessionEv.timerFire 0]).2
      = 0 ∧
    (runSession true (manualStop ⟨true, true, 0, [], none, 0, true⟩)
      [SessionEv.callEnd, SessionEv.errTransient, SessionEv.timerFire 0]).2
      = 0 :=
  c7_no_reconnect_after_fatal_or_stop true ⟨true, true, 0, [], none, 0, true⟩
    [SessionEv.callEnd, SessionEv.errTransient, SessionEv.timerFire 0]
    (Or.inl rfl)

/-- C7 (counterexample): two transient errors schedule two timers, the second
scheduling orphaning the first (the ref is overwritten without a clear); the
fatal error then sets the sentinel and cancels only the referenced timer, and
the orphaned timer still fires a reconnect start afterwards — refuting "no
automatic reconnection attempt is ever scheduled or fired" after a fatal
error. -/
theorem c7_counterexample :
    (onErrorFatal ((onErrorTransient ((onErrorTransient
        (⟨true, true, 0, [], none, 0, true⟩ : SessionState)).1)).1)).reconnectAttempts
      = 999 ∧
    (runSession true
      (onErrorFatal ((onErrorTransient ((onErrorTransient
        (⟨true, true, 0, [], none, 0, true⟩ : SessionState)).1)).1))
      [SessionEv.timerFire 0]).2 = 1 := by
  refine ⟨rfl, rfl⟩

/-! ## Claim C9: the deterministic override for high-value order phrases -/

/-- C9 (amended): a transcript containing "buy now" that matches none of the
earlier direct rules (cart queries, cart totals, home, back, open-cart) is
consumed by the deterministic checkout rule — navigation to checkout — and
the classification oracle is never consulted for it. -/
theorem c9_buy_now_override (ctx : DirectCtx) (t : String)
    (h1 : cartQueryRule (jsTrim (jsLower t)) = false)
    (h2 : cartTotalRule (jsTrim (jsLower t)) = false)
    (h3 : navRule "home" (jsTrim (jsLower t)) = false)
    (h4 : navRule "back" (jsTrim (jsLower t)) = false)
    (h5 : openCartRule (jsTrim (jsLower t)) = false)
    (hbuy : containsSub (jsTrim (jsLower t)) "buy now" = true) :
    handleDirectCommands ctx t = some DirectAction.checkoutNav ∧
    oracleConsulted ctx t = false := by
  have hck : checkoutRule (jsTrim (jsLower t)) = true := by
    unfold checkoutRule
    rw [hbuy]
    simp
  unfold oracleConsulted handleDirectCommands
  simp [h1, h2, h3, h4, h5, hck]

/-- C9 (witness): the transcript `"buy now"` itself is consumed by the
override without consulting the oracle. -/
theorem c9_witness :
    handleDirectCommands ⟨false, none, none⟩ "buy now"
      = some DirectAction.checkoutNav ∧
    oracleConsulted ⟨false, none, none⟩ "buy now" = false :=
  c9_buy_now_override ⟨false, none, none⟩ "buy now" (by decide) (by decide)
    (by decide) (by decide) (by decide) (by decide)

/-- C9 (counterexample): `"place order"` is not among the override phrases —
no direct rule consumes it, and the classification oracle is consulted; so
"place order is handled by the deterministic override before the oracle" is
false. -/
theorem c9_counterexample :
    handleDirectCommands ⟨false, none, none⟩ "place order" = none ∧
    oracleConsulted ⟨false, none, none⟩ "place order" = true := by
  refine ⟨rfl, rfl⟩

end VNova
